import Mathlib

/-!
# Blog backend (`server.js`): request handlers over a relational store

Every route of `server.js` issues one parametrised SQL statement through
`pool.query` and turns the resulting row set into an HTTP response.  The
development below embeds

* the two tables `blog_posts` and `blog_comments` as lists of rows in scan
  order: `INSERT` writes the new row after the existing ones, `UPDATE` writes
  the new version of a row after the existing rows and drops the old version,
  `DELETE` drops rows;
* text values of the store as strings without the character U+0000, which the
  store does not accept: a statement with a string parameter that contains it
  fails, and `pool.query` throws;
* each SQL statement of the source as a function on that store, returning
  `Except String _` the way `pool.query` either resolves or throws;
* each route handler as a function `Store → … → Response × Store`, with the
  `try`/`catch` of the source as the match on the query result.

`uuidv4()` and `NOW()` are inputs of the handlers that use them.  The scan order
of a table is not fixed by SQL; the properties proved about tables are stated up
to order wherever an `UPDATE` is involved.
-/

namespace PortfolioBack

/-! ## Data model -/

/-- True when the string contains the character U+0000. -/
def hasNul (v : String) : Bool := v.data.any (fun c => decide (c = Char.ofNat 0))

/-- A text value of the store: a string without the character U+0000. -/
structure Text where
  val : String
  noNul : hasNul val = false
deriving DecidableEq, Repr

/-- Modelled from the spec: the schema of table `blog_posts` is not part of the
source; the spec lists its columns (id, title, slug, image_url, content,
excerpt, author, badge, date, likes).  The id is an opaque string, the text
columns filled from the request body are nullable (a field absent from the body
is sent as SQL NULL), `date` is a timestamp and `likes` a non-negative
integer. -/
structure Post where
  id : Text
  title : Option Text
  slug : Option Text
  image_url : Option Text
  content : Option Text
  excerpt : Option Text
  author : Option Text
  badge : Option Text
  date : Nat
  likes : Nat
deriving DecidableEq, Repr

/-- Modelled from the spec: the schema of table `blog_comments` is not part of
the source; the spec lists its columns (id, post_id, name, comment,
created_at). -/
structure Comment where
  id : Text
  post_id : Text
  name : Option Text
  comment : Option Text
  created_at : Nat
deriving DecidableEq, Repr

/-- The relational store: the rows of the two tables, in scan order. -/
structure Store where
  blog_posts : List Post
  blog_comments : List Comment
deriving DecidableEq, Repr

/-- The fields `const { title, slug, image_url, content, excerpt, author, badge } = req.body`
of a create or update request; a field that is absent is `none`.  The strings are arbitrary
JSON strings. -/
structure PostBody where
  title : Option String
  slug : Option String
  image_url : Option String
  content : Option String
  excerpt : Option String
  author : Option String
  badge : Option String
deriving DecidableEq, Repr

/-- The fields `const { name, comment } = req.body` of an add-comment request. -/
structure CommentBody where
  name : Option String
  comment : Option String
deriving DecidableEq, Repr

/-- The JSON value handed to `res.json`. -/
inductive Body where
  | posts (rows : List Post)
  | post (row : Post)
  | comments (rows : List Comment)
  | message (text : String)
  | error (text : String)
  | undefined
deriving DecidableEq, Repr

/-- An HTTP response: status code (200 unless `res.status` was called) and body. -/
structure Response where
  status : Nat
  body : Body
deriving DecidableEq, Repr

/-! ## SQL layer -/

/-- The message of the error the store raises for a string parameter that contains U+0000. -/
def nulError : String := "invalid byte sequence for encoding \"UTF8\": 0x00"

/-- A string parameter `$n` of a statement: accepted as a text value unless it contains
U+0000, in which case the statement fails. -/
def textParam (v : String) : Except String Text :=
  if h : hasNul v = false then .ok ⟨v, h⟩ else .error nulError

/-- A parameter `$n` taken from the request body: an absent field is sent as NULL. -/
def nullableTextParam : Option String → Except String (Option Text)
  | none => .ok none
  | some v =>
    match textParam v with
    | .ok t => .ok (some t)
    | .error err => .error err

/-- The seven body columns of a `blog_posts` row. -/
structure PostFields where
  title : Option Text
  slug : Option Text
  image_url : Option Text
  content : Option Text
  excerpt : Option Text
  author : Option Text
  badge : Option Text
deriving DecidableEq, Repr

/-- The parameters `[title, slug, image_url, content, excerpt, author, badge]` of the `INSERT`
and `UPDATE` on `blog_posts`. -/
def postParams (b : PostBody) : Except String PostFields := do
  let title ← nullableTextParam b.title
  let slug ← nullableTextParam b.slug
  let image_url ← nullableTextParam b.image_url
  let content ← nullableTextParam b.content
  let excerpt ← nullableTextParam b.excerpt
  let author ← nullableTextParam b.author
  let badge ← nullableTextParam b.badge
  pure ⟨title, slug, image_url, content, excerpt, author, badge⟩

/-- Insertion of one row into a list ordered by `le`; a row goes in front of
the first row it is `le` to. -/
def insertRow {α : Type} (le : α → α → Bool) (a : α) : List α → List α
  | [] => [a]
  | b :: l => if le a b then a :: b :: l else b :: insertRow le a l

/-- The clause `ORDER BY`: sorts the rows by `le`, rows that tie keep their scan order. -/
def orderBy {α : Type} (le : α → α → Bool) : List α → List α
  | [] => []
  | a :: l => insertRow le a (orderBy le l)

/-- The ordering of `ORDER BY date DESC`. -/
def dateDesc (a b : Post) : Bool := decide (b.date ≤ a.date)

/-- The ordering of `ORDER BY created_at ASC`. -/
def createdAtAsc (a b : Comment) : Bool := decide (a.created_at ≤ b.created_at)

/-- The statement `SELECT * FROM blog_posts ORDER BY date DESC`. -/
def selectPostsOrderByDateDesc (s : Store) : Except String (List Post) :=
  .ok (orderBy dateDesc s.blog_posts)

/-- The statement `SELECT * FROM blog_posts WHERE slug = $1`; a row whose slug is NULL never
matches. -/
def selectPostsWhereSlug (s : Store) (slug : String) : Except String (List Post) := do
  let slug ← textParam slug
  pure (s.blog_posts.filter (fun p => decide (p.slug = some slug)))

/-- The row written by
`INSERT INTO blog_posts (id, title, slug, image_url, content, excerpt, author, badge, date, likes)
 VALUES ($1, $2, $3, $4, $5, $6, $7, $8, NOW(), 0)`. -/
def newPost (id : Text) (f : PostFields) (now : Nat) : Post :=
  { id := id, title := f.title, slug := f.slug, image_url := f.image_url,
    content := f.content, excerpt := f.excerpt, author := f.author, badge := f.badge,
    date := now, likes := 0 }

/-- The statement `INSERT INTO blog_posts (…) VALUES (…) RETURNING *`: the inserted row and
the store with that row appended. -/
def insertPostReturning (s : Store) (id : Text) (b : PostBody) (now : Nat) :
    Except String (List Post × Store) := do
  let f ← postParams b
  pure ([newPost id f now], { s with blog_posts := s.blog_posts ++ [newPost id f now] })

/-- The assignment list
`SET title=$1, slug=$2, image_url=$3, content=$4, excerpt=$5, author=$6, badge=$7, date=NOW()`
applied to one row. -/
def setPost (f : PostFields) (now : Nat) (p : Post) : Post :=
  { p with title := f.title, slug := f.slug, image_url := f.image_url,
           content := f.content, excerpt := f.excerpt, author := f.author, badge := f.badge,
           date := now }

/-- The statement `UPDATE blog_posts SET … WHERE id=$8 RETURNING *`: the rewritten rows, and the
store in which the rows with that id are replaced by their new versions, written after the
other rows. -/
def updatePostReturning (s : Store) (b : PostBody) (now : Nat) (id : String) :
    Except String (List Post × Store) := do
  let f ← postParams b
  let id ← textParam id
  let rows := (s.blog_posts.filter (fun p => decide (p.id = id))).map (setPost f now)
  pure (rows, { s with blog_posts := s.blog_posts.filter (fun p => !decide (p.id = id)) ++ rows })

/-- The statement `DELETE FROM blog_posts WHERE id = $1 RETURNING id`: the ids of the deleted
rows and the store without them. -/
def deletePostReturningId (s : Store) (id : String) : Except String (List Text × Store) := do
  let id ← textParam id
  pure ((s.blog_posts.filter (fun p => decide (p.id = id))).map (fun p => p.id),
        { s with blog_posts := s.blog_posts.filter (fun p => !decide (p.id = id)) })

/-- The statement `UPDATE blog_posts SET likes = likes + 1 WHERE id = $1`: the rows with that id
are replaced by their new versions, written after the other rows. -/
def updateLikes (s : Store) (id : String) : Except String Store := do
  let id ← textParam id
  let rows := (s.blog_posts.filter (fun p => decide (p.id = id))).map (fun p =>
    { p with likes := p.likes + 1 })
  pure { s with blog_posts := s.blog_posts.filter (fun p => !decide (p.id = id)) ++ rows }

/-- The statement `SELECT * FROM blog_comments WHERE post_id = $1 ORDER BY created_at ASC`. -/
def selectCommentsWherePostId (s : Store) (postId : String) : Except String (List Comment) := do
  let postId ← textParam postId
  pure (orderBy createdAtAsc (s.blog_comments.filter (fun c => decide (c.post_id = postId))))

/-- The row written by
`INSERT INTO blog_comments (id, post_id, name, comment, created_at) VALUES ($1, $2, $3, $4, NOW())`. -/
def newComment (id postId : Text) (name comment : Option Text) (now : Nat) : Comment :=
  { id := id, post_id := postId, name := name, comment := comment, created_at := now }

/-- The statement `INSERT INTO blog_comments (…) VALUES (…)` with the parameters
`[id, req.params.id, name, comment]`. -/
def insertComment (s : Store) (id : Text) (postId : String) (b : CommentBody) (now : Nat) :
    Except String Store := do
  let postId ← textParam postId
  let name ← nullableTextParam b.name
  let comment ← nullableTextParam b.comment
  pure { s with blog_comments := s.blog_comments ++ [newComment id postId name comment now] }

/-! ## Route handlers -/

/-- Handler `app.get("/api/posts")`. -/
def getPosts (s : Store) : Response × Store :=
  match selectPostsOrderByDateDesc s with
  | .ok rows => (⟨200, .posts rows⟩, s)
  | .error err => (⟨500, .error err⟩, s)

/-- Handler `app.get("/api/posts/:slug")`. -/
def getPostBySlug (s : Store) (slug : String) : Response × Store :=
  match selectPostsWhereSlug s slug with
  | .ok [] => (⟨404, .error "Post not found"⟩, s)
  | .ok (row :: _) => (⟨200, .post row⟩, s)
  | .error err => (⟨500, .error err⟩, s)

/-- Handler `app.post("/api/posts")`; `uuid` is the value of `uuidv4()`, `now` that of `NOW()`. -/
def createPost (s : Store) (uuid : Text) (now : Nat) (body : PostBody) : Response × Store :=
  match insertPostReturning s uuid body now with
  | .ok (row :: _, s1) => (⟨201, .post row⟩, s1)
  | .ok ([], s1) => (⟨201, .undefined⟩, s1)
  | .error err => (⟨500, .error err⟩, s)

/-- Handler `app.put("/api/posts/:id")`. -/
def updatePost (s : Store) (now : Nat) (id : String) (body : PostBody) : Response × Store :=
  match updatePostReturning s body now id with
  | .ok ([], s1) => (⟨404, .error "Post not found"⟩, s1)
  | .ok (row :: _, s1) => (⟨200, .post row⟩, s1)
  | .error err => (⟨500, .error err⟩, s)

/-- Handler `app.delete("/api/posts/:id")`. -/
def deletePost (s : Store) (id : String) : Response × Store :=
  match deletePostReturningId s id with
  | .ok ([], s1) => (⟨404, .error "Post not found"⟩, s1)
  | .ok (_ :: _, s1) => (⟨200, .message "Post deleted successfully"⟩, s1)
  | .error err => (⟨500, .error err⟩, s)

/-- Handler `app.post("/api/posts/:id/like")`. -/
def likePost (s : Store) (id : String) : Response × Store :=
  match updateLikes s id with
  | .ok s1 => (⟨200, .message "Like added"⟩, s1)
  | .error err => (⟨500, .error err⟩, s)

/-- Handler `app.get("/api/posts/:id/comments")`. -/
def getComments (s : Store) (id : String) : Response × Store :=
  match selectCommentsWherePostId s id with
  | .ok rows => (⟨200, .comments rows⟩, s)
  | .error err => (⟨500, .error err⟩, s)

/-- Handler `app.post("/api/posts/:id/comments")`; `uuid` is the value of `uuidv4()`,
`now` that of `NOW()`. -/
def addComment (s : Store) (uuid : Text) (now : Nat) (id : String) (body : CommentBody) :
    Response × Store :=
  match insertComment s uuid id body now with
  | .ok s1 => (⟨201, .message "Comment added"⟩, s1)
  | .error err => (⟨500, .error err⟩, s)

/-- The request `GET /api/posts/<slug>`.  With an empty slug the path is `/api/posts/`, which
the router matches against the route `/api/posts`, registered first; every other slug is one
path segment and reaches the route `/api/posts/:slug`. -/
def requestPostBySlug (s : Store) (slug : String) : Response × Store :=
  if slug = "" then getPosts s else getPostBySlug s slug

/-- A run of `n` like requests for the same id, one after the other: the responses in order
and the final store. -/
def likeTimes : Nat → Store → String → List Response × Store
  | 0, s, _ => ([], s)
  | n + 1, s, id =>
    let r := likePost s id
    let rest := likeTimes n r.2 id
    (r.1 :: rest.1, rest.2)

/-- True when the optional string is absent or free of U+0000. -/
def optNoNul : Option String → Bool
  | none => true
  | some v => !hasNul v

/-- True when no string of the create or update body contains U+0000. -/
def PostBody.noNul (b : PostBody) : Bool :=
  optNoNul b.title && optNoNul b.slug && optNoNul b.image_url && optNoNul b.content &&
  optNoNul b.excerpt && optNoNul b.author && optNoNul b.badge

/-- True when no string of the add-comment body contains U+0000. -/
def CommentBody.noNul (b : CommentBody) : Bool :=
  optNoNul b.name && optNoNul b.comment

/-! ## Lemmas on the SQL layer -/

theorem Text.eq_iff (a b : Text) : a = b ↔ a.val = b.val := by
  cases a
  cases b
  simp

theorem textParam_val (t : Text) : textParam t.val = .ok t := by
  simp only [textParam, t.noNul, dite_true]

theorem textParam_of_hasNul (v : String) (h : hasNul v = true) :
    textParam v = .error nulError := by
  simp [textParam, h]

theorem val_ne_of_hasNul (t : Text) (v : String) (h : hasNul v = true) : t.val ≠ v := by
  intro heq
  have := t.noNul
  rw [heq, h] at this
  cases this

theorem nullableTextParam_of_noNul (v : Option String) (h : optNoNul v = true) :
    ∃ t : Option Text, nullableTextParam v = .ok t ∧ t.map Text.val = v := by
  cases v with
  | none => exact ⟨none, rfl, rfl⟩
  | some x =>
    have hx : hasNul x = false := by simpa [optNoNul] using h
    refine ⟨some ⟨x, hx⟩, ?_, rfl⟩
    have := textParam_val ⟨x, hx⟩
    simp only [nullableTextParam, this]

theorem postParams_of_noNul (b : PostBody) (h : b.noNul = true) :
    ∃ f : PostFields, postParams b = .ok f ∧
      f.title.map Text.val = b.title ∧ f.slug.map Text.val = b.slug ∧
      f.image_url.map Text.val = b.image_url ∧ f.content.map Text.val = b.content ∧
      f.excerpt.map Text.val = b.excerpt ∧ f.author.map Text.val = b.author ∧
      f.badge.map Text.val = b.badge := by
  simp only [PostBody.noNul, Bool.and_eq_true] at h
  obtain ⟨⟨⟨⟨⟨⟨h1, h2⟩, h3⟩, h4⟩, h5⟩, h6⟩, h7⟩ := h
  obtain ⟨t1, e1, v1⟩ := nullableTextParam_of_noNul _ h1
  obtain ⟨t2, e2, v2⟩ := nullableTextParam_of_noNul _ h2
  obtain ⟨t3, e3, v3⟩ := nullableTextParam_of_noNul _ h3
  obtain ⟨t4, e4, v4⟩ := nullableTextParam_of_noNul _ h4
  obtain ⟨t5, e5, v5⟩ := nullableTextParam_of_noNul _ h5
  obtain ⟨t6, e6, v6⟩ := nullableTextParam_of_noNul _ h6
  obtain ⟨t7, e7, v7⟩ := nullableTextParam_of_noNul _ h7
  refine ⟨⟨t1, t2, t3, t4, t5, t6, t7⟩, ?_, v1, v2, v3, v4, v5, v6, v7⟩
  simp only [postParams, e1, e2, e3, e4, e5, e6, e7]
  rfl

theorem insertRow_perm {α : Type} (le : α → α → Bool) (a : α) (l : List α) :
    (insertRow le a l).Perm (a :: l) := by
  induction l with
  | nil => simp [insertRow]
  | cons b l ih =>
    simp only [insertRow]
    split
    · exact List.Perm.refl _
    · exact (List.Perm.cons b ih).trans (List.Perm.swap a b l)

theorem orderBy_perm {α : Type} (le : α → α → Bool) (l : List α) :
    (orderBy le l).Perm l := by
  induction l with
  | nil => simp [orderBy]
  | cons a l ih =>
    simp only [orderBy]
    exact (insertRow_perm le a (orderBy le l)).trans (List.Perm.cons a ih)

theorem mem_insertRow {α : Type} (le : α → α → Bool) (a x : α) (l : List α) :
    x ∈ insertRow le a l ↔ x = a ∨ x ∈ l := by
  rw [(insertRow_perm le a l).mem_iff, List.mem_cons]

theorem mem_orderBy {α : Type} (le : α → α → Bool) (x : α) (l : List α) :
    x ∈ orderBy le l ↔ x ∈ l :=
  (orderBy_perm le l).mem_iff

theorem insertRow_pairwise {α : Type} (le : α → α → Bool)
    (htot : ∀ a b, le a b = true ∨ le b a = true)
    (htr : ∀ a b c, le a b = true → le b c = true → le a c = true)
    (a : α) (l : List α) (h : l.Pairwise (fun x y => le x y = true)) :
    (insertRow le a l).Pairwise (fun x y => le x y = true) := by
  induction l with
  | nil => simp [insertRow]
  | cons b l ih =>
    rw [List.pairwise_cons] at h
    simp only [insertRow]
    split
    · rename_i hab
      refine List.pairwise_cons.mpr ⟨?_, List.pairwise_cons.mpr h⟩
      intro y hy
      rcases List.mem_cons.mp hy with rfl | hy
      · exact hab
      · exact htr a b y hab (h.1 y hy)
    · rename_i hab
      have hba : le b a = true := by
        rcases htot a b with h1 | h1
        · exact absurd h1 hab
        · exact h1
      refine List.pairwise_cons.mpr ⟨?_, ih h.2⟩
      intro y hy
      rcases (mem_insertRow le a y l).mp hy with rfl | hy
      · exact hba
      · exact h.1 y hy

theorem orderBy_pairwise {α : Type} (le : α → α → Bool)
    (htot : ∀ a b, le a b = true ∨ le b a = true)
    (htr : ∀ a b c, le a b = true → le b c = true → le a c = true)
    (l : List α) : (orderBy le l).Pairwise (fun x y => le x y = true) := by
  induction l with
  | nil => simp [orderBy]
  | cons a l ih =>
    simp only [orderBy]
    exact insertRow_pairwise le htot htr a _ ih

theorem orderBy_dateDesc_pairwise (l : List Post) :
    (orderBy dateDesc l).Pairwise (fun a b => b.date ≤ a.date) := by
  have h := orderBy_pairwise dateDesc
    (fun a b => by simp only [dateDesc, decide_eq_true_eq]; exact Nat.le_total _ _)
    (fun a b c => by
      simp only [dateDesc, decide_eq_true_eq]
      intro h1 h2
      exact Nat.le_trans h2 h1) l
  exact h.imp (fun hab => by simpa [dateDesc] using hab)

theorem orderBy_createdAtAsc_pairwise (l : List Comment) :
    (orderBy createdAtAsc l).Pairwise (fun a b => a.created_at ≤ b.created_at) := by
  have h := orderBy_pairwise createdAtAsc
    (fun a b => by simp only [createdAtAsc, decide_eq_true_eq]; exact Nat.le_total _ _)
    (fun a b c => by
      simp only [createdAtAsc, decide_eq_true_eq]
      intro h1 h2
      exact Nat.le_trans h1 h2) l
  exact h.imp (fun hab => by simpa [createdAtAsc] using hab)

theorem filter_id_eq_nil (l : List Post) (t : Text) (h : ∀ p ∈ l, p.id.val ≠ t.val) :
    l.filter (fun p => decide (p.id = t)) = [] := by
  rw [List.filter_eq_nil_iff]
  intro p hp
  have := h p hp
  simpa [Text.eq_iff] using this

theorem filter_id_ne_self (l : List Post) (t : Text) (h : ∀ p ∈ l, p.id.val ≠ t.val) :
    l.filter (fun p => !decide (p.id = t)) = l := by
  rw [List.filter_eq_self]
  intro p hp
  have := h p hp
  simpa [Text.eq_iff] using this

theorem filter_id_eq_cons (l : List Post) (t : Text) (h : ∃ p ∈ l, p.id.val = t.val) :
    ∃ old rest, l.filter (fun p => decide (p.id = t)) = old :: rest ∧ old ∈ l ∧ old.id = t := by
  obtain ⟨p, hp, hid⟩ := h
  have hmem : p ∈ l.filter (fun p => decide (p.id = t)) :=
    List.mem_filter.mpr ⟨hp, by simpa [Text.eq_iff] using hid⟩
  cases hf : l.filter (fun p => decide (p.id = t)) with
  | nil => rw [hf] at hmem; cases hmem
  | cons old rest =>
    have hold : old ∈ l.filter (fun p => decide (p.id = t)) := by
      rw [hf]; exact List.mem_cons_self _ _
    have h2 := List.mem_filter.mp hold
    exact ⟨old, rest, rfl, h2.1, by simpa using h2.2⟩

/-- The rows of an `UPDATE … WHERE id = t`, the rewritten ones after the others, are the rows of
the table with the matching ones rewritten, in another order. -/
theorem update_perm (l : List Post) (t : Text) (g : Post → Post) :
    (l.filter (fun p => !decide (p.id = t)) ++
      (l.filter (fun p => decide (p.id = t))).map g).Perm
    (l.map (fun p => if p.id.val = t.val then g p else p)) := by
  induction l with
  | nil => simp
  | cons a l ih =>
    by_cases ha : a.id = t
    · have hv : a.id.val = t.val := (Text.eq_iff _ _).mp ha
      simp only [List.filter_cons, ha, decide_True, Bool.not_true, Bool.false_eq_true,
        if_false, if_true, List.map_cons, hv]
      exact List.perm_middle.trans (List.Perm.cons _ ih)
    · have hv : a.id.val ≠ t.val := fun h => ha ((Text.eq_iff _ _).mpr h)
      simp only [List.filter_cons, ha, decide_False, Bool.not_false, if_true,
        Bool.false_eq_true, if_false, List.map_cons, hv, List.cons_append]
      exact List.Perm.cons _ ih

/-! ## Lemmas on the handlers -/

theorem createPost_of_params (s : Store) (uuid : Text) (now : Nat) (body : PostBody)
    (f : PostFields) (h : postParams body = .ok f) :
    createPost s uuid now body =
      (⟨201, .post (newPost uuid f now)⟩,
       { s with blog_posts := s.blog_posts ++ [newPost uuid f now] }) := by
  simp only [createPost, insertPostReturning, h]
  rfl

theorem getPostBySlug_val (s : Store) (t : Text) :
    getPostBySlug s t.val =
      match s.blog_posts.filter (fun p => decide (p.slug = some t)) with
      | [] => (⟨404, .error "Post not found"⟩, s)
      | row :: _ => (⟨200, .post row⟩, s) := by
  simp only [getPostBySlug, selectPostsWhereSlug, textParam_val, bind, Except.bind, pure,
    Except.pure]
  cases s.blog_posts.filter (fun p => decide (p.slug = some t)) <;> rfl

theorem likePost_val (s : Store) (t : Text) :
    likePost s t.val =
      (⟨200, .message "Like added"⟩,
       ⟨s.blog_posts.filter (fun p => !decide (p.id = t)) ++
          (s.blog_posts.filter (fun p => decide (p.id = t))).map
            (fun p => { p with likes := p.likes + 1 }),
        s.blog_comments⟩) := by
  simp only [likePost, updateLikes, textParam_val]
  rfl

theorem likePost_of_hasNul (s : Store) (id : String) (h : hasNul id = true) :
    likePost s id = (⟨500, .error nulError⟩, s) := by
  simp only [likePost, updateLikes, textParam_of_hasNul id h]
  rfl

theorem deletePost_val (s : Store) (t : Text) :
    deletePost s t.val =
      match (s.blog_posts.filter (fun p => decide (p.id = t))).map (fun p => p.id) with
      | [] => (⟨404, .error "Post not found"⟩,
               { s with blog_posts := s.blog_posts.filter (fun p => !decide (p.id = t)) })
      | _ :: _ => (⟨200, .message "Post deleted successfully"⟩,
               { s with blog_posts := s.blog_posts.filter (fun p => !decide (p.id = t)) }) := by
  simp only [deletePost, deletePostReturningId, textParam_val, bind, Except.bind, pure,
    Except.pure]
  cases (s.blog_posts.filter (fun p => decide (p.id = t))).map (fun p => p.id) <;> rfl

theorem deletePost_of_hasNul (s : Store) (id : String) (h : hasNul id = true) :
    deletePost s id = (⟨500, .error nulError⟩, s) := by
  simp only [deletePost, deletePostReturningId, textParam_of_hasNul id h]
  rfl

theorem getComments_val (s : Store) (t : Text) :
    getComments s t.val =
      (⟨200, .comments
          (orderBy createdAtAsc (s.blog_comments.filter (fun c => decide (c.post_id = t))))⟩,
       s) := by
  simp only [getComments, selectCommentsWherePostId, textParam_val]
  rfl

theorem getComments_of_hasNul (s : Store) (id : String) (h : hasNul id = true) :
    getComments s id = (⟨500, .error nulError⟩, s) := by
  simp only [getComments, selectCommentsWherePostId, textParam_of_hasNul id h]
  rfl

theorem updatePost_of_params (s : Store) (now : Nat) (t : Text) (body : PostBody)
    (f : PostFields) (h : postParams body = .ok f) :
    updatePost s now t.val body =
      match (s.blog_posts.filter (fun p => decide (p.id = t))).map (setPost f now) with
      | [] => (⟨404, .error "Post not found"⟩,
               { s with blog_posts := s.blog_posts.filter (fun p => !decide (p.id = t)) ++
                  (s.blog_posts.filter (fun p => decide (p.id = t))).map (setPost f now) })
      | row :: _ => (⟨200, .post row⟩,
               { s with blog_posts := s.blog_posts.filter (fun p => !decide (p.id = t)) ++
                  (s.blog_posts.filter (fun p => decide (p.id = t))).map (setPost f now) }) := by
  simp only [updatePost, updatePostReturning, h, textParam_val, bind, Except.bind, pure,
    Except.pure]
  cases (s.blog_posts.filter (fun p => decide (p.id = t))).map (setPost f now) <;> rfl

theorem addComment_of_params (s : Store) (uuid : Text) (now : Nat) (t : Text)
    (body : CommentBody) (name comment : Option Text)
    (h1 : nullableTextParam body.name = .ok name)
    (h2 : nullableTextParam body.comment = .ok comment) :
    addComment s uuid now t.val body =
      (⟨201, .message "Comment added"⟩,
       { s with blog_comments := s.blog_comments ++ [newComment uuid t name comment now] }) := by
  simp only [addComment, insertComment, textParam_val, h1, h2]
  rfl

/-! ## Create, then fetch by slug -/

/-- Claim C1, as stated, fails in three ways.  (1) The store already holds a post with slug "a"
(id "1", title "old"); creating a post with slug "a" (generated id "2", title "new") responds
201 with the new post, and the request for slug "a" issued right after responds 200 with the
OLD post, not the created one.  (2) A body whose title contains U+0000 is answered 500, not
201, and nothing is stored.  (3) After creating a post whose slug is the empty string, the
request for that slug is answered by the list route, with an array of posts. -/
theorem createPost_getPostBySlug_fails :
    ((createPost
        ⟨[⟨⟨"1", rfl⟩, some ⟨"old", rfl⟩, some ⟨"a", rfl⟩, none, none, none, none, none, 3, 4⟩], []⟩
        ⟨"2", rfl⟩ 9 ⟨some "new", some "a", none, none, none, none, none⟩).1
      = ⟨201, .post ⟨⟨"2", rfl⟩, some ⟨"new", rfl⟩, some ⟨"a", rfl⟩, none, none, none, none, none,
          9, 0⟩⟩ ∧
     (requestPostBySlug
        (createPost
          ⟨[⟨⟨"1", rfl⟩, some ⟨"old", rfl⟩, some ⟨"a", rfl⟩, none, none, none, none, none, 3, 4⟩],
           []⟩
          ⟨"2", rfl⟩ 9 ⟨some "new", some "a", none, none, none, none, none⟩).2
        "a").1
      = ⟨200, .post ⟨⟨"1", rfl⟩, some ⟨"old", rfl⟩, some ⟨"a", rfl⟩, none, none, none, none, none,
          3, 4⟩⟩ ∧
     (requestPostBySlug
        (createPost
          ⟨[⟨⟨"1", rfl⟩, some ⟨"old", rfl⟩, some ⟨"a", rfl⟩, none, none, none, none, none, 3, 4⟩],
           []⟩
          ⟨"2", rfl⟩ 9 ⟨some "new", some "a", none, none, none, none, none⟩).2
        "a").1
      ≠ ⟨200, .post ⟨⟨"2", rfl⟩, some ⟨"new", rfl⟩, some ⟨"a", rfl⟩, none, none, none, none, none,
          9, 0⟩⟩) ∧
    createPost ⟨[], []⟩ ⟨"2", rfl⟩ 9 ⟨some "a\x00b", some "a", none, none, none, none, none⟩
      = (⟨500, .error "invalid byte sequence for encoding \"UTF8\": 0x00"⟩, ⟨[], []⟩) ∧
    ((createPost ⟨[], []⟩ ⟨"2", rfl⟩ 9 ⟨some "new", some "", none, none, none, none, none⟩).1
      = ⟨201, .post ⟨⟨"2", rfl⟩, some ⟨"new", rfl⟩, some ⟨"", rfl⟩, none, none, none, none, none,
          9, 0⟩⟩ ∧
     (requestPostBySlug
        (createPost ⟨[], []⟩ ⟨"2", rfl⟩ 9 ⟨some "new", some "", none, none, none, none, none⟩).2
        "").1
      = ⟨200, .posts [⟨⟨"2", rfl⟩, some ⟨"new", rfl⟩, some ⟨"", rfl⟩, none, none, none, none, none,
          9, 0⟩]⟩) := by
  refine ⟨⟨rfl, rfl, ?_⟩, rfl, rfl, rfl⟩
  decide

/-- Claim C1, amended: for every store state and every create-post body none of whose strings
contains U+0000, the create handler responds 201 with a post carrying the body's title, slug,
image_url, content, excerpt, author and badge, the generated id and likes = 0; and when
moreover the body's slug is a non-empty string that no stored post has, the get-by-slug
request for that slug issued immediately afterwards responds 200 with that same post. -/
theorem createPost_then_getPostBySlug (s : Store) (uuid : Text) (now : Nat) (body : PostBody)
    (hbody : body.noNul = true) :
    ∃ p : Post,
      (createPost s uuid now body).1 = ⟨201, .post p⟩ ∧
      p.id = uuid ∧ p.likes = 0 ∧
      p.title.map Text.val = body.title ∧ p.slug.map Text.val = body.slug ∧
      p.image_url.map Text.val = body.image_url ∧ p.content.map Text.val = body.content ∧
      p.excerpt.map Text.val = body.excerpt ∧ p.author.map Text.val = body.author ∧
      p.badge.map Text.val = body.badge ∧
      (∀ slug : String, body.slug = some slug → slug ≠ "" →
        (∀ q ∈ s.blog_posts, q.slug.map Text.val ≠ some slug) →
        (requestPostBySlug (createPost s uuid now body).2 slug).1 = ⟨200, .post p⟩) := by
  obtain ⟨f, hf, v1, v2, v3, v4, v5, v6, v7⟩ := postParams_of_noNul body hbody
  rw [createPost_of_params s uuid now body f hf]
  refine ⟨newPost uuid f now, rfl, rfl, rfl, v1, v2, v3, v4, v5, v6, v7, ?_⟩
  intro slug hslug hne hfresh
  rw [hslug] at v2
  obtain ⟨t, ht, rfl⟩ : ∃ t : Text, f.slug = some t ∧ t.val = slug := by
    cases hfs : f.slug with
    | none => rw [hfs] at v2; cases v2
    | some t =>
      rw [hfs] at v2
      exact ⟨t, rfl, by simpa using v2⟩
  have hnil : s.blog_posts.filter (fun p => decide (p.slug = some t)) = [] := by
    rw [List.filter_eq_nil_iff]
    intro q hq
    have h1 := hfresh q hq
    have h2 : q.slug ≠ some t := fun h => h1 (by rw [h]; rfl)
    simpa using h2
  have hnew : (newPost uuid f now).slug = some t := ht
  simp only [requestPostBySlug, hne, if_false, getPostBySlug_val, List.filter_append, hnil,
    List.nil_append, List.filter_cons, hnew, decide_True, if_true, List.filter_nil]

/-- Instance of the amended create-then-fetch property: the store holds one post with slug "b"
and the created post has slug "a". -/
theorem createPost_then_getPostBySlug_witness :
    (⟨some "new", some "a", none, none, none, none, none⟩ : PostBody).noNul = true ∧
    ∃ p : Post,
      (createPost
        ⟨[⟨⟨"1", rfl⟩, some ⟨"old", rfl⟩, some ⟨"b", rfl⟩, none, none, none, none, none, 3, 4⟩], []⟩
        ⟨"2", rfl⟩ 9 ⟨some "new", some "a", none, none, none, none, none⟩).1
        = ⟨201, .post p⟩ ∧
      p.id = ⟨"2", rfl⟩ ∧ p.likes = 0 ∧
      p.title.map Text.val = some "new" ∧ p.slug.map Text.val = some "a" ∧
      (requestPostBySlug
        (createPost
          ⟨[⟨⟨"1", rfl⟩, some ⟨"old", rfl⟩, some ⟨"b", rfl⟩, none, none, none, none, none, 3, 4⟩],
           []⟩
          ⟨"2", rfl⟩ 9 ⟨some "new", some "a", none, none, none, none, none⟩).2
        "a").1 = ⟨200, .post p⟩ := by
  refine ⟨rfl, ?_⟩
  obtain ⟨p, h1, h2, h3, h4, h5, _, _, _, _, _, h6⟩ :=
    createPost_then_getPostBySlug
      ⟨[⟨⟨"1", rfl⟩, some ⟨"old", rfl⟩, some ⟨"b", rfl⟩, none, none, none, none, none, 3, 4⟩], []⟩
      ⟨"2", rfl⟩ 9 ⟨some "new", some "a", none, none, none, none, none⟩ rfl
  exact ⟨p, h1, h2, h3, h4, h5, h6 "a" rfl (by decide) (by decide)⟩

/-! ## Likes -/

theorem likeTimes_val (n : Nat) (s : Store) (t : Text) :
    (likeTimes n s t.val).1 = List.replicate n ⟨200, .message "Like added"⟩ ∧
    (likeTimes n s t.val).2.blog_posts.Perm
      (s.blog_posts.map
        (fun p => if p.id.val = t.val then { p with likes := p.likes + n } else p)) ∧
    (likeTimes n s t.val).2.blog_comments = s.blog_comments := by
  induction n generalizing s with
  | zero =>
    refine ⟨rfl, ?_, rfl⟩
    simp only [likeTimes, Nat.add_zero]
    have : (fun p : Post => if p.id.val = t.val then p else p) = fun p => p := by
      funext p; simp
    rw [this, List.map_id']
  | succ n ih =>
    simp only [likeTimes, likePost_val]
    obtain ⟨h1, h2, h3⟩ := ih
      ⟨s.blog_posts.filter (fun p => !decide (p.id = t)) ++
          (s.blog_posts.filter (fun p => decide (p.id = t))).map
            (fun p => { p with likes := p.likes + 1 }),
        s.blog_comments⟩
    refine ⟨?_, ?_, h3⟩
    · rw [h1]; rfl
    · refine h2.trans ?_
      refine ((update_perm s.blog_posts t _).map _).trans ?_
      rw [List.map_map]
      apply List.Perm.of_eq
      apply List.map_congr_left
      intro p _
      by_cases hp : p.id.val = t.val
      · simp [hp, Nat.add_assoc, Nat.add_comm 1 n]
      · simp [hp]

/-- Claim C2: for every store state holding a post with id `id`, and every number `n`, a run of
`n` like requests for `id` answers each request with 200 and the message "Like added"; the
posts afterwards are the stored posts with `n` added to the like count of those with that
id (up to scan order), the comments are unchanged; so a stored post with id `id` and like
count `k` is found with like count `k + n` afterwards (5 becomes 6 after one request). -/
theorem likeTimes_adds_n (n : Nat) (s : Store) (id : String)
    (hstored : ∃ p ∈ s.blog_posts, p.id.val = id) :
    (likeTimes n s id).1 = List.replicate n ⟨200, .message "Like added"⟩ ∧
    (likeTimes n s id).2.blog_posts.Perm
      (s.blog_posts.map (fun p => if p.id.val = id then { p with likes := p.likes + n } else p)) ∧
    (likeTimes n s id).2.blog_comments = s.blog_comments ∧
    (∀ p ∈ s.blog_posts, ∀ k : Nat, p.id.val = id → p.likes = k →
      { p with likes := k + n } ∈ (likeTimes n s id).2.blog_posts) := by
  obtain ⟨q, _, rfl⟩ := hstored
  obtain ⟨h1, h2, h3⟩ := likeTimes_val n s q.id
  refine ⟨h1, h2, h3, ?_⟩
  intro p hp k hid hk
  subst hk
  rw [h2.mem_iff, List.mem_map]
  exact ⟨p, hp, by simp [hid]⟩

/-- Instance of the like-count property: one like request on a post with 5 likes leaves it
with 6. -/
theorem likeTimes_adds_n_witness :
    (∃ p ∈ (⟨[⟨⟨"1", rfl⟩, some ⟨"t", rfl⟩, some ⟨"a", rfl⟩, none, none, none, none, none, 3, 5⟩],
        []⟩ : Store).blog_posts, p.id.val = "1") ∧
    (likeTimes 1
      ⟨[⟨⟨"1", rfl⟩, some ⟨"t", rfl⟩, some ⟨"a", rfl⟩, none, none, none, none, none, 3, 5⟩], []⟩
      "1").1 = [⟨200, .message "Like added"⟩] ∧
    (⟨⟨"1", rfl⟩, some ⟨"t", rfl⟩, some ⟨"a", rfl⟩, none, none, none, none, none, 3, 5 + 1⟩ : Post)
      ∈ (likeTimes 1
          ⟨[⟨⟨"1", rfl⟩, some ⟨"t", rfl⟩, some ⟨"a", rfl⟩, none, none, none, none, none, 3, 5⟩],
           []⟩ "1").2.blog_posts :=
  ⟨⟨_, List.mem_singleton.mpr rfl, rfl⟩,
   (likeTimes_adds_n 1
      ⟨[⟨⟨"1", rfl⟩, some ⟨"t", rfl⟩, some ⟨"a", rfl⟩, none, none, none, none, none, 3, 5⟩], []⟩
      "1" ⟨_, List.mem_singleton.mpr rfl, rfl⟩).1,
   (likeTimes_adds_n 1
      ⟨[⟨⟨"1", rfl⟩, some ⟨"t", rfl⟩, some ⟨"a", rfl⟩, none, none, none, none, none, 3, 5⟩], []⟩
      "1" ⟨_, List.mem_singleton.mpr rfl, rfl⟩).2.2.2
      ⟨⟨"1", rfl⟩, some ⟨"t", rfl⟩, some ⟨"a", rfl⟩, none, none, none, none, none, 3, 5⟩
      (List.mem_singleton.mpr rfl) 5 rfl rfl⟩

/-- Claim C9, as stated, fails: the id "a\x00" (path `/api/posts/a%00/like`) is the id of no
stored post, and the like handler answers 500, not 200. -/
theorem likePost_nul_id_fails :
    (∀ p ∈ (⟨[⟨⟨"1", rfl⟩, some ⟨"t", rfl⟩, some ⟨"a", rfl⟩, none, none, none, none, none, 3, 5⟩],
        []⟩ : Store).blog_posts, p.id.val ≠ "a\x00") ∧
    likePost
      ⟨[⟨⟨"1", rfl⟩, some ⟨"t", rfl⟩, some ⟨"a", rfl⟩, none, none, none, none, none, 3, 5⟩], []⟩
      "a\x00"
      = (⟨500, .error "invalid byte sequence for encoding \"UTF8\": 0x00"⟩,
         ⟨[⟨⟨"1", rfl⟩, some ⟨"t", rfl⟩, some ⟨"a", rfl⟩, none, none, none, none, none, 3, 5⟩],
          []⟩) :=
  ⟨by decide, rfl⟩

/-- Claim C9, amended: for every store state and every id that no stored post has, the like
handler returns the store unchanged (every post, including every like count, and every
comment), and when the id is free of U+0000 it responds 200 with the message "Like added". -/
theorem likePost_missing_id (s : Store) (id : String) (h : ∀ p ∈ s.blog_posts, p.id.val ≠ id) :
    (likePost s id).2 = s ∧
    (hasNul id = false → (likePost s id).1 = ⟨200, .message "Like added"⟩) := by
  cases hid : hasNul id with
  | true =>
    refine ⟨?_, fun hf => by cases hf⟩
    rw [likePost_of_hasNul s id hid]
  | false =>
    have h1 := likePost_val s ⟨id, hid⟩
    rw [filter_id_eq_nil s.blog_posts ⟨id, hid⟩ h, filter_id_ne_self s.blog_posts ⟨id, hid⟩ h]
      at h1
    simp only [List.map_nil, List.append_nil] at h1
    rw [h1]
    exact ⟨rfl, fun _ => rfl⟩

/-- Instance of the missing-id like property: a like request for id "9" on a store whose only
post has id "1". -/
theorem likePost_missing_id_witness :
    (∀ p ∈ (⟨[⟨⟨"1", rfl⟩, some ⟨"t", rfl⟩, some ⟨"a", rfl⟩, none, none, none, none, none, 3, 5⟩],
              [⟨⟨"c", rfl⟩, ⟨"9", rfl⟩, some ⟨"n", rfl⟩, some ⟨"hi", rfl⟩, 4⟩]⟩ :
        Store).blog_posts, p.id.val ≠ "9") ∧
    hasNul "9" = false ∧
    (likePost
      ⟨[⟨⟨"1", rfl⟩, some ⟨"t", rfl⟩, some ⟨"a", rfl⟩, none, none, none, none, none, 3, 5⟩],
       [⟨⟨"c", rfl⟩, ⟨"9", rfl⟩, some ⟨"n", rfl⟩, some ⟨"hi", rfl⟩, 4⟩]⟩ "9").2
      = ⟨[⟨⟨"1", rfl⟩, some ⟨"t", rfl⟩, some ⟨"a", rfl⟩, none, none, none, none, none, 3, 5⟩],
          [⟨⟨"c", rfl⟩, ⟨"9", rfl⟩, some ⟨"n", rfl⟩, some ⟨"hi", rfl⟩, 4⟩]⟩ ∧
    (likePost
      ⟨[⟨⟨"1", rfl⟩, some ⟨"t", rfl⟩, some ⟨"a", rfl⟩, none, none, none, none, none, 3, 5⟩],
       [⟨⟨"c", rfl⟩, ⟨"9", rfl⟩, some ⟨"n", rfl⟩, some ⟨"hi", rfl⟩, 4⟩]⟩ "9").1
      = ⟨200, .message "Like added"⟩ :=
  ⟨by decide, rfl,
   (likePost_missing_id
      ⟨[⟨⟨"1", rfl⟩, some ⟨"t", rfl⟩, some ⟨"a", rfl⟩, none, none, none, none, none, 3, 5⟩],
       [⟨⟨"c", rfl⟩, ⟨"9", rfl⟩, some ⟨"n", rfl⟩, some ⟨"hi", rfl⟩, 4⟩]⟩ "9" (by decide)).1,
   (likePost_missing_id
      ⟨[⟨⟨"1", rfl⟩, some ⟨"t", rfl⟩, some ⟨"a", rfl⟩, none, none, none, none, none, 3, 5⟩],
       [⟨⟨"c", rfl⟩, ⟨"9", rfl⟩, some ⟨"n", rfl⟩, some ⟨"hi", rfl⟩, 4⟩]⟩ "9" (by decide)).2
      rfl⟩

/-! ## Delete -/

theorem deletePost_store (s : Store) (id : String) :
    (deletePost s id).2 = ⟨s.blog_posts.filter (fun p => decide (p.id.val ≠ id)), s.blog_comments⟩ := by
  cases hid : hasNul id with
  | true =>
    rw [deletePost_of_hasNul s id hid]
    have : s.blog_posts.filter (fun p => decide (p.id.val ≠ id)) = s.blog_posts := by
      rw [List.filter_eq_self]
      intro p _
      simpa using val_ne_of_hasNul p.id id hid
    rw [this]
  | false =>
    have h1 := deletePost_val s ⟨id, hid⟩
    have hfilter : s.blog_posts.filter (fun p => !decide (p.id = (⟨id, hid⟩ : Text))) =
        s.blog_posts.filter (fun p => decide (p.id.val ≠ id)) := by
      apply List.filter_congr
      intro p _
      simp [Text.eq_iff]
    simp only at h1
    rw [h1, hfilter]
    cases (s.blog_posts.filter (fun p => decide (p.id = (⟨id, hid⟩ : Text)))).map
      (fun p => p.id) <;> rfl

theorem deletePost_of_missing (s : Store) (id : String) (hid : hasNul id = false)
    (h : ∀ p ∈ s.blog_posts, p.id.val ≠ id) :
    deletePost s id = (⟨404, .error "Post not found"⟩, s) := by
  have h1 := deletePost_val s ⟨id, hid⟩
  rw [filter_id_eq_nil s.blog_posts ⟨id, hid⟩ h, filter_id_ne_self s.blog_posts ⟨id, hid⟩ h]
    at h1
  simpa using h1

theorem getComments_congr (s1 s2 : Store) (id : String)
    (h : s1.blog_comments = s2.blog_comments) :
    (getComments s1 id).1 = (getComments s2 id).1 := by
  cases hid : hasNul id with
  | true => rw [getComments_of_hasNul s1 id hid, getComments_of_hasNul s2 id hid]
  | false =>
    have h1 := getComments_val s1 ⟨id, hid⟩
    have h2 := getComments_val s2 ⟨id, hid⟩
    simp only at h1 h2
    rw [h1, h2, h]

/-- Claim C3: for every store state and every id, if a delete request for that id responds 200,
then a second delete request for the same id issued immediately afterwards responds 404 with
the error body "Post not found" and returns the store it was given. -/
theorem deletePost_twice (s : Store) (id : String) (h : (deletePost s id).1.status = 200) :
    deletePost (deletePost s id).2 id =
      (⟨404, .error "Post not found"⟩, (deletePost s id).2) := by
  cases hid : hasNul id with
  | true =>
    rw [deletePost_of_hasNul s id hid] at h
    cases h
  | false =>
    apply deletePost_of_missing _ _ hid
    intro p hp
    rw [deletePost_store] at hp
    simpa using (List.mem_filter.mp hp).2

/-- Instance of the double delete: the store holds posts "1" and "2", post "1" is deleted
twice. -/
theorem deletePost_twice_witness :
    (deletePost
        ⟨[⟨⟨"1", rfl⟩, some ⟨"t", rfl⟩, some ⟨"a", rfl⟩, none, none, none, none, none, 3, 5⟩,
          ⟨⟨"2", rfl⟩, some ⟨"u", rfl⟩, some ⟨"b", rfl⟩, none, none, none, none, none, 4, 0⟩], []⟩
        "1").1.status = 200 ∧
    deletePost
      (deletePost
        ⟨[⟨⟨"1", rfl⟩, some ⟨"t", rfl⟩, some ⟨"a", rfl⟩, none, none, none, none, none, 3, 5⟩,
          ⟨⟨"2", rfl⟩, some ⟨"u", rfl⟩, some ⟨"b", rfl⟩, none, none, none, none, none, 4, 0⟩], []⟩
        "1").2
      "1" =
      (⟨404, .error "Post not found"⟩,
       (deletePost
        ⟨[⟨⟨"1", rfl⟩, some ⟨"t", rfl⟩, some ⟨"a", rfl⟩, none, none, none, none, none, 3, 5⟩,
          ⟨⟨"2", rfl⟩, some ⟨"u", rfl⟩, some ⟨"b", rfl⟩, none, none, none, none, none, 4, 0⟩], []⟩
        "1").2) :=
  ⟨rfl,
   deletePost_twice
      ⟨[⟨⟨"1", rfl⟩, some ⟨"t", rfl⟩, some ⟨"a", rfl⟩, none, none, none, none, none, 3, 5⟩,
        ⟨⟨"2", rfl⟩, some ⟨"u", rfl⟩, some ⟨"b", rfl⟩, none, none, none, none, none, 4, 0⟩], []⟩
      "1" rfl⟩

/-- Claim C10: for every store state and every id, the delete handler removes exactly the posts
whose id equals that id (the posts left are the stored posts with another id, each unchanged
and in the same order), leaves the comments table unchanged, and the list-comments
handler for that id answers after the delete what it answered before; every stored comment
whose post_id is the deleted id is still in the store and still returned by that handler,
with status 200. -/
theorem deletePost_frame (s : Store) (id : String) :
    (deletePost s id).2.blog_posts = s.blog_posts.filter (fun p => decide (p.id.val ≠ id)) ∧
    (∀ p : Post, p ∈ (deletePost s id).2.blog_posts ↔ p ∈ s.blog_posts ∧ p.id.val ≠ id) ∧
    (deletePost s id).2.blog_comments = s.blog_comments ∧
    (getComments (deletePost s id).2 id).1 = (getComments s id).1 ∧
    (∀ c ∈ s.blog_comments, c.post_id.val = id →
      c ∈ (deletePost s id).2.blog_comments ∧
      ∃ rows : List Comment,
        (getComments (deletePost s id).2 id).1 = ⟨200, .comments rows⟩ ∧ c ∈ rows) := by
  rw [deletePost_store]
  refine ⟨rfl, ?_, rfl, ?_, ?_⟩
  · intro p
    simp [List.mem_filter]
  · exact getComments_congr _ _ id rfl
  · intro c hc hid
    subst hid
    refine ⟨hc, ?_⟩
    rw [getComments_val]
    refine ⟨_, rfl, ?_⟩
    rw [mem_orderBy, List.mem_filter]
    exact ⟨hc, by simp⟩

/-- Instance of the delete frame property: post "1" is deleted from a store that holds posts "1"
and "2" and one comment on post "1"; post "2" and the comment stay, and the comment is still
listed for id "1". -/
theorem deletePost_frame_witness :
    deletePost
      ⟨[⟨⟨"1", rfl⟩, some ⟨"t", rfl⟩, some ⟨"a", rfl⟩, none, none, none, none, none, 3, 5⟩,
        ⟨⟨"2", rfl⟩, some ⟨"u", rfl⟩, some ⟨"b", rfl⟩, none, none, none, none, none, 4, 0⟩],
       [⟨⟨"c", rfl⟩, ⟨"1", rfl⟩, some ⟨"n", rfl⟩, some ⟨"hi", rfl⟩, 4⟩]⟩ "1"
      = (⟨200, .message "Post deleted successfully"⟩,
         ⟨[⟨⟨"2", rfl⟩, some ⟨"u", rfl⟩, some ⟨"b", rfl⟩, none, none, none, none, none, 4, 0⟩],
          [⟨⟨"c", rfl⟩, ⟨"1", rfl⟩, some ⟨"n", rfl⟩, some ⟨"hi", rfl⟩, 4⟩]⟩) ∧
    ∃ rows : List Comment,
      (getComments
        (deletePost
          ⟨[⟨⟨"1", rfl⟩, some ⟨"t", rfl⟩, some ⟨"a", rfl⟩, none, none, none, none, none, 3, 5⟩,
            ⟨⟨"2", rfl⟩, some ⟨"u", rfl⟩, some ⟨"b", rfl⟩, none, none, none, none, none, 4, 0⟩],
           [⟨⟨"c", rfl⟩, ⟨"1", rfl⟩, some ⟨"n", rfl⟩, some ⟨"hi", rfl⟩, 4⟩]⟩ "1").2 "1").1
        = ⟨200, .comments rows⟩ ∧
      (⟨⟨"c", rfl⟩, ⟨"1", rfl⟩, some ⟨"n", rfl⟩, some ⟨"hi", rfl⟩, 4⟩ : Comment) ∈ rows :=
  ⟨rfl,
   ((deletePost_frame
      ⟨[⟨⟨"1", rfl⟩, some ⟨"t", rfl⟩, some ⟨"a", rfl⟩, none, none, none, none, none, 3, 5⟩,
        ⟨⟨"2", rfl⟩, some ⟨"u", rfl⟩, some ⟨"b", rfl⟩, none, none, none, none, none, 4, 0⟩],
       [⟨⟨"c", rfl⟩, ⟨"1", rfl⟩, some ⟨"n", rfl⟩, some ⟨"hi", rfl⟩, 4⟩]⟩ "1").2.2.2.2
      ⟨⟨"c", rfl⟩, ⟨"1", rfl⟩, some ⟨"n", rfl⟩, some ⟨"hi", rfl⟩, 4⟩
      (List.mem_singleton.mpr rfl) rfl).2⟩

/-! ## Listings -/

/-- Claim C4: for every store state, the list-posts handler responds 200 with a sequence that is
a permutation of the stored posts (so the answer does not depend on their insertion order
beyond ties) and in which every post has a date not earlier than that of every post after
it, in particular of the next one; the store is returned unchanged. -/
theorem getPosts_sorted_perm (s : Store) :
    ∃ rows : List Post,
      getPosts s = (⟨200, .posts rows⟩, s) ∧
      rows.Perm s.blog_posts ∧
      rows.Pairwise (fun a b => b.date ≤ a.date) ∧
      rows.Chain' (fun a b => b.date ≤ a.date) :=
  ⟨orderBy dateDesc s.blog_posts, rfl, orderBy_perm _ _, orderBy_dateDesc_pairwise _,
    (orderBy_dateDesc_pairwise _).chain'⟩

/-- Claim C5, as stated, fails: for the id "a\x00" (path `/api/posts/a%00/comments`) the
list-comments handler answers 500 with the store's error message, not 200 with a sequence of
comments. -/
theorem getComments_nul_id_fails :
    getComments ⟨[], [⟨⟨"c", rfl⟩, ⟨"1", rfl⟩, some ⟨"n", rfl⟩, some ⟨"hi", rfl⟩, 4⟩]⟩ "a\x00"
      = (⟨500, .error "invalid byte sequence for encoding \"UTF8\": 0x00"⟩,
         ⟨[], [⟨⟨"c", rfl⟩, ⟨"1", rfl⟩, some ⟨"n", rfl⟩, some ⟨"hi", rfl⟩, 4⟩]⟩) :=
  rfl

/-- Claim C5, amended: for every store state and every post id free of U+0000, the list-comments
handler responds 200 with a sequence that is a permutation of the stored comments whose
post_id equals that id (a comment is listed exactly when it is stored with that post_id) and
in which every comment has a created_at not later than that of every comment after it; the
store is returned unchanged. -/
theorem getComments_sorted_filter (s : Store) (id : String) (hid : hasNul id = false) :
    ∃ rows : List Comment,
      getComments s id = (⟨200, .comments rows⟩, s) ∧
      rows.Perm (s.blog_comments.filter (fun c => decide (c.post_id.val = id))) ∧
      (∀ c : Comment, c ∈ rows ↔ c ∈ s.blog_comments ∧ c.post_id.val = id) ∧
      rows.Pairwise (fun a b => a.created_at ≤ b.created_at) ∧
      rows.Chain' (fun a b => a.created_at ≤ b.created_at) := by
  have hfilter : s.blog_comments.filter (fun c => decide (c.post_id = (⟨id, hid⟩ : Text))) =
      s.blog_comments.filter (fun c => decide (c.post_id.val = id)) := by
    apply List.filter_congr
    intro c _
    simp [Text.eq_iff]
  refine ⟨orderBy createdAtAsc (s.blog_comments.filter (fun c => decide (c.post_id.val = id))),
    ?_, orderBy_perm _ _, ?_, orderBy_createdAtAsc_pairwise _,
    (orderBy_createdAtAsc_pairwise _).chain'⟩
  · have h1 := getComments_val s ⟨id, hid⟩
    rw [hfilter] at h1
    exact h1
  · intro c
    rw [mem_orderBy, List.mem_filter]
    simp

/-- Instance of the amended list-comments property: two comments on post "1", stored newest
first, and one on post "2". -/
theorem getComments_sorted_filter_witness :
    hasNul "1" = false ∧
    ∃ rows : List Comment,
      getComments
        ⟨[], [⟨⟨"c", rfl⟩, ⟨"1", rfl⟩, some ⟨"n", rfl⟩, some ⟨"hi", rfl⟩, 8⟩,
              ⟨⟨"d", rfl⟩, ⟨"2", rfl⟩, some ⟨"m", rfl⟩, some ⟨"yo", rfl⟩, 5⟩,
              ⟨⟨"e", rfl⟩, ⟨"1", rfl⟩, some ⟨"k", rfl⟩, some ⟨"ok", rfl⟩, 4⟩]⟩ "1"
        = (⟨200, .comments rows⟩,
           ⟨[], [⟨⟨"c", rfl⟩, ⟨"1", rfl⟩, some ⟨"n", rfl⟩, some ⟨"hi", rfl⟩, 8⟩,
              ⟨⟨"d", rfl⟩, ⟨"2", rfl⟩, some ⟨"m", rfl⟩, some ⟨"yo", rfl⟩, 5⟩,
              ⟨⟨"e", rfl⟩, ⟨"1", rfl⟩, some ⟨"k", rfl⟩, some ⟨"ok", rfl⟩, 4⟩]⟩) ∧
      rows.Pairwise (fun a b => a.created_at ≤ b.created_at) := by
  refine ⟨rfl, ?_⟩
  obtain ⟨rows, h1, _, _, h4, _⟩ :=
    getComments_sorted_filter
      ⟨[], [⟨⟨"c", rfl⟩, ⟨"1", rfl⟩, some ⟨"n", rfl⟩, some ⟨"hi", rfl⟩, 8⟩,
            ⟨⟨"d", rfl⟩, ⟨"2", rfl⟩, some ⟨"m", rfl⟩, some ⟨"yo", rfl⟩, 5⟩,
            ⟨⟨"e", rfl⟩, ⟨"1", rfl⟩, some ⟨"k", rfl⟩, some ⟨"ok", rfl⟩, 4⟩]⟩ "1" rfl
  exact ⟨rows, h1, h4⟩

/-! ## Update -/

theorem updatePost_of_error (s : Store) (now : Nat) (id : String) (body : PostBody)
    (err : String) (h : postParams body = .error err) :
    updatePost s now id body = (⟨500, .error err⟩, s) := by
  simp only [updatePost, updatePostReturning, h]
  rfl

theorem updatePost_of_hasNul (s : Store) (now : Nat) (id : String) (body : PostBody)
    (f : PostFields) (h : postParams body = .ok f) (hid : hasNul id = true) :
    updatePost s now id body = (⟨500, .error nulError⟩, s) := by
  simp only [updatePost, updatePostReturning, h, textParam_of_hasNul id hid]
  rfl

theorem updatePost_of_missing (s : Store) (now : Nat) (t : Text) (body : PostBody)
    (f : PostFields) (hf : postParams body = .ok f)
    (h : ∀ p ∈ s.blog_posts, p.id.val ≠ t.val) :
    updatePost s now t.val body = (⟨404, .error "Post not found"⟩, s) := by
  rw [updatePost_of_params s now t body f hf, filter_id_eq_nil s.blog_posts t h,
    filter_id_ne_self s.blog_posts t h]
  simp

/-- Claim C6, as stated, fails in two ways.  (1) Post "1" is stored and the update body's title
contains U+0000: the update handler answers 500, not 200, and rewrites nothing.  (2) The id
"a\x00" is the id of no stored post: the handler answers 500, not 404. -/
theorem updatePost_nul_fails :
    updatePost
      ⟨[⟨⟨"1", rfl⟩, some ⟨"t", rfl⟩, some ⟨"a", rfl⟩, none, none, none, none, none, 3, 5⟩], []⟩
      9 "1" ⟨some "T\x00", some "s", some "i", some "c", some "e", some "x", some "b"⟩
      = (⟨500, .error "invalid byte sequence for encoding \"UTF8\": 0x00"⟩,
         ⟨[⟨⟨"1", rfl⟩, some ⟨"t", rfl⟩, some ⟨"a", rfl⟩, none, none, none, none, none, 3, 5⟩],
          []⟩) ∧
    (∀ p ∈ (⟨[⟨⟨"1", rfl⟩, some ⟨"t", rfl⟩, some ⟨"a", rfl⟩, none, none, none, none, none, 3, 5⟩],
        []⟩ : Store).blog_posts, p.id.val ≠ "a\x00") ∧
    updatePost
      ⟨[⟨⟨"1", rfl⟩, some ⟨"t", rfl⟩, some ⟨"a", rfl⟩, none, none, none, none, none, 3, 5⟩], []⟩
      9 "a\x00" ⟨some "T", some "s", some "i", some "c", some "e", some "x", some "b"⟩
      = (⟨500, .error "invalid byte sequence for encoding \"UTF8\": 0x00"⟩,
         ⟨[⟨⟨"1", rfl⟩, some ⟨"t", rfl⟩, some ⟨"a", rfl⟩, none, none, none, none, none, 3, 5⟩],
          []⟩) :=
  ⟨rfl, by decide, rfl⟩

/-- Claim C6, amended: for every store state, post id and update body, the update handler returns
the store unchanged when no post has that id; and when neither the id nor a string of the
body contains U+0000, it responds 404 in that case, and otherwise responds 200 with a post
whose title, slug, image_url, content, excerpt, author and badge are the body's values and
whose date is the current time, while its id and like count are those of a post stored
under that id before the update.  After such an update the posts are the stored posts with
every post of that id rewritten in exactly this way (up to scan order), and the comments
are unchanged. -/
theorem updatePost_spec (s : Store) (now : Nat) (id : String) (body : PostBody) :
    ((∀ p ∈ s.blog_posts, p.id.val ≠ id) → (updatePost s now id body).2 = s) ∧
    (hasNul id = false → body.noNul = true →
      ((∀ p ∈ s.blog_posts, p.id.val ≠ id) →
        (updatePost s now id body).1 = ⟨404, .error "Post not found"⟩) ∧
      ((∃ p ∈ s.blog_posts, p.id.val = id) →
        ∃ old ∈ s.blog_posts, ∃ new : Post,
          old.id.val = id ∧
          (updatePost s now id body).1 = ⟨200, .post new⟩ ∧
          new.title.map Text.val = body.title ∧ new.slug.map Text.val = body.slug ∧
          new.image_url.map Text.val = body.image_url ∧
          new.content.map Text.val = body.content ∧
          new.excerpt.map Text.val = body.excerpt ∧ new.author.map Text.val = body.author ∧
          new.badge.map Text.val = body.badge ∧ new.date = now ∧
          new.id = old.id ∧ new.likes = old.likes ∧
          (updatePost s now id body).2.blog_posts.Perm
            (s.blog_posts.map (fun q =>
              if q.id.val = id then
                { q with title := new.title, slug := new.slug, image_url := new.image_url,
                         content := new.content, excerpt := new.excerpt, author := new.author,
                         badge := new.badge, date := now }
              else q)) ∧
          (updatePost s now id body).2.blog_comments = s.blog_comments)) := by
  constructor
  · intro hmiss
    cases hp : postParams body with
    | error err => rw [updatePost_of_error s now id body err hp]
    | ok f =>
      cases hid : hasNul id with
      | true => rw [updatePost_of_hasNul s now id body f hp hid]
      | false => rw [updatePost_of_missing s now ⟨id, hid⟩ body f hp hmiss]
  · intro hid hbody
    obtain ⟨f, hf, v1, v2, v3, v4, v5, v6, v7⟩ := postParams_of_noNul body hbody
    constructor
    · intro hmiss
      rw [updatePost_of_missing s now ⟨id, hid⟩ body f hf hmiss]
    · intro hex
      obtain ⟨old, rest, hfl, hold, hoid⟩ := filter_id_eq_cons s.blog_posts ⟨id, hid⟩ hex
      have hval : old.id.val = id := by rw [hoid]
      have hupd := updatePost_of_params s now ⟨id, hid⟩ body f hf
      simp only [hfl, List.map_cons] at hupd
      refine ⟨old, hold, setPost f now old, hval, ?_, v1, v2, v3, v4, v5, v6, v7, rfl, rfl, rfl,
        ?_, ?_⟩
      · rw [hupd]
      · rw [hupd]
        have hperm := update_perm s.blog_posts ⟨id, hid⟩ (setPost f now)
        rw [hfl] at hperm
        exact hperm
      · rw [hupd]

/-- Instance of the update property: in a store that holds posts "1" and "2", an update of the
missing id "9" responds 404 and changes nothing, and an update of post "1" responds 200 with
the rewritten post, which keeps id "1" and its 5 likes. -/
theorem updatePost_spec_witness :
    (updatePost
      ⟨[⟨⟨"1", rfl⟩, some ⟨"t", rfl⟩, some ⟨"a", rfl⟩, none, none, none, none, none, 3, 5⟩,
        ⟨⟨"2", rfl⟩, some ⟨"u", rfl⟩, some ⟨"b", rfl⟩, none, none, none, none, none, 4, 0⟩], []⟩
      9 "9" ⟨some "T", some "s", some "i", some "c", some "e", some "x", some "b"⟩).2
      = ⟨[⟨⟨"1", rfl⟩, some ⟨"t", rfl⟩, some ⟨"a", rfl⟩, none, none, none, none, none, 3, 5⟩,
          ⟨⟨"2", rfl⟩, some ⟨"u", rfl⟩, some ⟨"b", rfl⟩, none, none, none, none, none, 4, 0⟩],
         []⟩ ∧
    (updatePost
      ⟨[⟨⟨"1", rfl⟩, some ⟨"t", rfl⟩, some ⟨"a", rfl⟩, none, none, none, none, none, 3, 5⟩,
        ⟨⟨"2", rfl⟩, some ⟨"u", rfl⟩, some ⟨"b", rfl⟩, none, none, none, none, none, 4, 0⟩], []⟩
      9 "9" ⟨some "T", some "s", some "i", some "c", some "e", some "x", some "b"⟩).1
      = ⟨404, .error "Post not found"⟩ ∧
    ∃ new : Post,
      (updatePost
        ⟨[⟨⟨"1", rfl⟩, some ⟨"t", rfl⟩, some ⟨"a", rfl⟩, none, none, none, none, none, 3, 5⟩,
          ⟨⟨"2", rfl⟩, some ⟨"u", rfl⟩, some ⟨"b", rfl⟩, none, none, none, none, none, 4, 0⟩], []⟩
        9 "1" ⟨some "T", some "s", some "i", some "c", some "e", some "x", some "b"⟩).1
        = ⟨200, .post new⟩ ∧
      new.title.map Text.val = some "T" ∧ new.date = 9 ∧ new.id.val = "1" ∧ new.likes = 5 := by
  refine ⟨?_, ?_, ?_⟩
  · exact (updatePost_spec
        ⟨[⟨⟨"1", rfl⟩, some ⟨"t", rfl⟩, some ⟨"a", rfl⟩, none, none, none, none, none, 3, 5⟩,
          ⟨⟨"2", rfl⟩, some ⟨"u", rfl⟩, some ⟨"b", rfl⟩, none, none, none, none, none, 4, 0⟩], []⟩
        9 "9" ⟨some "T", some "s", some "i", some "c", some "e", some "x", some "b"⟩).1 (by decide)
  · exact ((updatePost_spec
        ⟨[⟨⟨"1", rfl⟩, some ⟨"t", rfl⟩, some ⟨"a", rfl⟩, none, none, none, none, none, 3, 5⟩,
          ⟨⟨"2", rfl⟩, some ⟨"u", rfl⟩, some ⟨"b", rfl⟩, none, none, none, none, none, 4, 0⟩], []⟩
        9 "9" ⟨some "T", some "s", some "i", some "c", some "e", some "x", some "b"⟩).2 rfl rfl).1 (by decide)
  · obtain ⟨old, hold, new, h1, h2, h3, _, _, _, _, _, _, h4, h5, h6, _, _⟩ :=
      ((updatePost_spec
        ⟨[⟨⟨"1", rfl⟩, some ⟨"t", rfl⟩, some ⟨"a", rfl⟩, none, none, none, none, none, 3, 5⟩,
          ⟨⟨"2", rfl⟩, some ⟨"u", rfl⟩, some ⟨"b", rfl⟩, none, none, none, none, none, 4, 0⟩], []⟩
        9 "1" ⟨some "T", some "s", some "i", some "c", some "e", some "x", some "b"⟩).2
          rfl rfl).2 ⟨_, List.mem_cons_self _ _, rfl⟩
    refine ⟨new, h2, h3, h4, ?_, ?_⟩
    · rw [h5, h1]
    · rw [h6]
      simp only [List.mem_cons, List.mem_singleton, List.not_mem_nil, or_false] at hold
      rcases hold with rfl | rfl
      · rfl
      · exact absurd h1 (by decide)

/-! ## Fetch by slug -/

theorem getPostBySlug_store (s : Store) (slug : String) : (getPostBySlug s slug).2 = s := by
  cases hslug : hasNul slug with
  | true =>
    simp only [getPostBySlug, selectPostsWhereSlug, textParam_of_hasNul slug hslug]
    rfl
  | false =>
    have h := getPostBySlug_val s ⟨slug, hslug⟩
    simp only at h
    rw [h]
    cases s.blog_posts.filter (fun p => decide (p.slug = some (⟨slug, hslug⟩ : Text))) <;> rfl

theorem slug_eq_iff (p : Post) (t : Text) : p.slug = some t ↔ p.slug.map Text.val = some t.val := by
  cases hs : p.slug with
  | none => simp
  | some u => simp [Text.eq_iff]

/-- Claim C7, as stated, fails: no stored post has the slug "a\x00b" (path `/api/posts/a%00b`),
and the get-by-slug handler answers 500 with the store's error message, not 404 with
"Post not found". -/
theorem getPostBySlug_nul_slug_fails :
    (∀ p ∈ (⟨[⟨⟨"1", rfl⟩, some ⟨"t", rfl⟩, some ⟨"a", rfl⟩, none, none, none, none, none, 3, 5⟩],
        []⟩ : Store).blog_posts, p.slug.map Text.val ≠ some "a\x00b") ∧
    getPostBySlug
      ⟨[⟨⟨"1", rfl⟩, some ⟨"t", rfl⟩, some ⟨"a", rfl⟩, none, none, none, none, none, 3, 5⟩], []⟩
      "a\x00b"
      = (⟨500, .error "invalid byte sequence for encoding \"UTF8\": 0x00"⟩,
         ⟨[⟨⟨"1", rfl⟩, some ⟨"t", rfl⟩, some ⟨"a", rfl⟩, none, none, none, none, none, 3, 5⟩],
          []⟩) :=
  ⟨by decide, rfl⟩

/-- Claim C7, amended: for every store state and every slug, the get-by-slug handler returns the
store unchanged; and when the slug is free of U+0000 it responds 404, and then with the error
body "Post not found", if and only if no stored post has that slug, and otherwise responds
200 with a stored post whose slug equals the requested slug. -/
theorem getPostBySlug_spec (s : Store) (slug : String) :
    (getPostBySlug s slug).2 = s ∧
    (hasNul slug = false →
      ((getPostBySlug s slug).1.status = 404 ↔
        ∀ p ∈ s.blog_posts, p.slug.map Text.val ≠ some slug) ∧
      ((getPostBySlug s slug).1 = ⟨404, .error "Post not found"⟩ ↔
        ∀ p ∈ s.blog_posts, p.slug.map Text.val ≠ some slug) ∧
      ((∃ p ∈ s.blog_posts, p.slug.map Text.val = some slug) →
        ∃ p ∈ s.blog_posts, p.slug.map Text.val = some slug ∧
          (getPostBySlug s slug).1 = ⟨200, .post p⟩)) := by
  refine ⟨getPostBySlug_store s slug, ?_⟩
  intro hslug
  have h := getPostBySlug_val s ⟨slug, hslug⟩
  simp only at h
  rw [h]
  cases hf : s.blog_posts.filter (fun p => decide (p.slug = some (⟨slug, hslug⟩ : Text))) with
  | nil =>
    have hnone : ∀ p ∈ s.blog_posts, p.slug.map Text.val ≠ some slug := by
      intro p hp hs
      have h1 := List.filter_eq_nil_iff.mp hf p hp
      exact h1 (by simpa using (slug_eq_iff p ⟨slug, hslug⟩).mpr hs)
    refine ⟨⟨fun _ => hnone, fun _ => rfl⟩, ⟨fun _ => hnone, fun _ => rfl⟩, ?_⟩
    rintro ⟨p, hp, hs⟩
    exact absurd hs (hnone p hp)
  | cons row rest =>
    have hrow : row ∈ s.blog_posts.filter
        (fun p => decide (p.slug = some (⟨slug, hslug⟩ : Text))) := by
      rw [hf]; exact List.mem_cons_self _ _
    have h2 := List.mem_filter.mp hrow
    have hs : row.slug.map Text.val = some slug :=
      (slug_eq_iff row ⟨slug, hslug⟩).mp (by simpa using h2.2)
    refine ⟨⟨fun h => ?_, fun h => absurd hs (h row h2.1)⟩,
      ⟨fun h => ?_, fun h => absurd hs (h row h2.1)⟩, fun _ => ⟨row, h2.1, hs, rfl⟩⟩
    · simp at h
    · simp at h

/-- Instance of the get-by-slug property: slug "a" is stored, slug "z" is not. -/
theorem getPostBySlug_spec_witness :
    hasNul "z" = false ∧
    (∀ p ∈ (⟨[⟨⟨"1", rfl⟩, some ⟨"t", rfl⟩, some ⟨"a", rfl⟩, none, none, none, none, none, 3, 5⟩],
        []⟩ : Store).blog_posts, p.slug.map Text.val ≠ some "z") ∧
    (getPostBySlug
      ⟨[⟨⟨"1", rfl⟩, some ⟨"t", rfl⟩, some ⟨"a", rfl⟩, none, none, none, none, none, 3, 5⟩], []⟩
      "z").1 = ⟨404, .error "Post not found"⟩ ∧
    ∃ p ∈ (⟨[⟨⟨"1", rfl⟩, some ⟨"t", rfl⟩, some ⟨"a", rfl⟩, none, none, none, none, none, 3, 5⟩],
        []⟩ : Store).blog_posts,
      p.slug.map Text.val = some "a" ∧
      (getPostBySlug
        ⟨[⟨⟨"1", rfl⟩, some ⟨"t", rfl⟩, some ⟨"a", rfl⟩, none, none, none, none, none, 3, 5⟩], []⟩
        "a").1 = ⟨200, .post p⟩ :=
  ⟨rfl, by decide,
   ((getPostBySlug_spec
      ⟨[⟨⟨"1", rfl⟩, some ⟨"t", rfl⟩, some ⟨"a", rfl⟩, none, none, none, none, none, 3, 5⟩], []⟩
      "z").2 rfl).2.1.mpr (by decide),
   ((getPostBySlug_spec
      ⟨[⟨⟨"1", rfl⟩, some ⟨"t", rfl⟩, some ⟨"a", rfl⟩, none, none, none, none, none, 3, 5⟩], []⟩
      "a").2 rfl).2.2
      ⟨⟨⟨"1", rfl⟩, some ⟨"t", rfl⟩, some ⟨"a", rfl⟩, none, none, none, none, none, 3, 5⟩,
        List.mem_singleton.mpr rfl, rfl⟩⟩

/-! ## Add comment -/

theorem addComment_store (s : Store) (uuid : Text) (now : Nat) (id : String)
    (body : CommentBody) :
    (addComment s uuid now id body).2.blog_posts = s.blog_posts ∧
    s.blog_comments <+: (addComment s uuid now id body).2.blog_comments := by
  simp only [addComment, insertComment]
  cases textParam id with
  | error e => exact ⟨rfl, List.prefix_refl _⟩
  | ok t =>
    cases nullableTextParam body.name with
    | error e => exact ⟨rfl, List.prefix_refl _⟩
    | ok name =>
      cases nullableTextParam body.comment with
      | error e => exact ⟨rfl, List.prefix_refl _⟩
      | ok comment => exact ⟨rfl, List.prefix_append _ _⟩

/-- Claim C8, as stated, fails: with the name "a\x00b" in the body the add-comment handler
answers 500 with the store's error message, not 201, and stores no comment. -/
theorem addComment_nul_name_fails :
    addComment ⟨[], []⟩ ⟨"c", rfl⟩ 9 "1" ⟨some "a\x00b", some "hi"⟩
      = (⟨500, .error "invalid byte sequence for encoding \"UTF8\": 0x00"⟩, ⟨[], []⟩) :=
  rfl

/-- Claim C8, amended: for every store state, every post id (whether or not a stored post has it)
and every body with name and comment, the add-comment handler leaves all posts and all
pre-existing comments unchanged; and when neither the id nor the name nor the comment
contains U+0000, it responds 201 with the message "Comment added" and the comments table
afterwards is the old one followed by exactly one new comment, which has the generated id,
that post_id, and the body's name and comment. -/
theorem addComment_spec (s : Store) (uuid : Text) (now : Nat) (id : String)
    (body : CommentBody) :
    (addComment s uuid now id body).2.blog_posts = s.blog_posts ∧
    s.blog_comments <+: (addComment s uuid now id body).2.blog_comments ∧
    (hasNul id = false → body.noNul = true →
      ∃ c : Comment,
        c.id = uuid ∧ c.post_id.val = id ∧ c.name.map Text.val = body.name ∧
        c.comment.map Text.val = body.comment ∧ c.created_at = now ∧
        (addComment s uuid now id body).1 = ⟨201, .message "Comment added"⟩ ∧
        (addComment s uuid now id body).2.blog_comments = s.blog_comments ++ [c]) := by
  refine ⟨(addComment_store s uuid now id body).1, (addComment_store s uuid now id body).2, ?_⟩
  intro hid hbody
  simp only [CommentBody.noNul, Bool.and_eq_true] at hbody
  obtain ⟨name, e1, v1⟩ := nullableTextParam_of_noNul _ hbody.1
  obtain ⟨comment, e2, v2⟩ := nullableTextParam_of_noNul _ hbody.2
  have h := addComment_of_params s uuid now ⟨id, hid⟩ body name comment e1 e2
  simp only at h
  rw [h]
  exact ⟨newComment uuid ⟨id, hid⟩ name comment now, rfl, rfl, v1, v2, rfl, rfl, rfl⟩

/-- Instance of the add-comment property: a comment on post id "9", which no stored post has. -/
theorem addComment_spec_witness :
    hasNul "9" = false ∧ (⟨some "n", some "hi"⟩ : CommentBody).noNul = true ∧
    ∃ c : Comment,
      c.id = ⟨"c", rfl⟩ ∧ c.post_id.val = "9" ∧ c.name.map Text.val = some "n" ∧
      c.comment.map Text.val = some "hi" ∧ c.created_at = 9 ∧
      (addComment ⟨[], []⟩ ⟨"c", rfl⟩ 9 "9" ⟨some "n", some "hi"⟩).1
        = ⟨201, .message "Comment added"⟩ ∧
      (addComment ⟨[], []⟩ ⟨"c", rfl⟩ 9 "9" ⟨some "n", some "hi"⟩).2.blog_comments = [] ++ [c] :=
  ⟨rfl, rfl,
   (addComment_spec ⟨[], []⟩ ⟨"c", rfl⟩ 9 "9" ⟨some "n", some "hi"⟩).2.2 rfl rfl⟩

end PortfolioBack
